import Mathlib

/-!
Verification development for the unmarked-crosswalk distance map.

The analysed program is a PostGIS/SQL analysis pipeline
(`analyze-sketchiness.sql`) plus a Next.js vector-tile endpoint
(`route.ts`) and an export script (`export-sketchiness-tiles.sh`).
The SQL queries are embedded shallowly: table rows become structures,
the column expressions become Lean functions over `Option` values
(SQL NULL is `none`), numeric columns are modelled exactly over `ℚ`,
and PostGIS geometry builtins (`ST_Distance`, `ST_LineSubstring`,
geometry values themselves) are treated as opaque parameters, since
they are library externals to this repository.
-/

namespace CrosswalkMap

/-! ### SQL string primitives -/

/-- ASCII case-folding on a character code (ILIKE folds case before
matching; the OSM tag values involved are ASCII). -/
def lowerCode (c : Char) : Nat :=
  if 65 ≤ c.toNat ∧ c.toNat ≤ 90 then c.toNat + 32 else c.toNat

/-- Case-insensitive substring test on non-NULL strings: models
`s ILIKE '%' || pat || '%'` (a `%pat%` pattern matches exactly when
`pat` occurs, case-insensitively, as a contiguous substring). -/
def ilikeContains (s pat : String) : Bool :=
  decide (List.IsInfix (pat.toList.map lowerCode) (s.toList.map lowerCode))

/-- SQL `ILIKE` on a nullable left operand: NULL propagates to NULL. -/
def sqlIlikeContains (s : Option String) (pat : String) : Option Bool :=
  s.map (fun t => ilikeContains t pat)

/-- SQL three-valued `OR`: `TRUE OR NULL = TRUE`, `FALSE OR NULL = NULL`. -/
def sqlOr : Option Bool → Option Bool → Option Bool
  | some true, _ => some true
  | _, some true => some true
  | some false, some false => some false
  | _, _ => none

/-- SQL `NULLIF(s, '')`. -/
def sqlNullifEmpty (s : String) : Option String :=
  if s = "" then none else some s

/-! ### Phase 1: crosswalk classification (`crosswalks_raw`)

`tag : Option String` is the value of `tags->'crossing'` for the feature
(`none` when the hstore has no `crossing` key). -/

/-- The `crossing_type` column of `crosswalks_raw`:
`COALESCE(NULLIF(tags->'crossing', ''), 'unknown')`. -/
def crossing_type (tag : Option String) : String :=
  (tag.bind sqlNullifEmpty).getD "unknown"

/-- The `marked` column of `crosswalks_raw`:
`((tags->'crossing') ILIKE '%marked%' OR (tags->'crossing') ILIKE '%zebra%')`.
NULL tags propagate through `ILIKE` and three-valued `OR`. -/
def marked (tag : Option String) : Option Bool :=
  sqlOr (sqlIlikeContains tag "marked") (sqlIlikeContains tag "zebra")

/-! ### Region construction (`analysis_bounds`) -/

/-- Opaque PostGIS geometry expressions: free terms over the external
geometry builtins the script calls.  The builtins themselves are
library externals; this repository only composes them. -/
inductive Geom where
  | makeEnvelope (minLon minLat maxLon maxLat : ℚ) (srid : Int)
  | transform (g : Geom) (srid : Int)
  | buffer (g : Geom) (radius : ℚ)
  deriving DecidableEq

/-- The five psql variables consumed by the region step. -/
structure RegionParams where
  min_lon : ℚ
  min_lat : ℚ
  max_lon : ℚ
  max_lat : ℚ
  bbox_buffer_m : ℚ
  deriving DecidableEq

/-- Default value of the psql variable `min_lon` (the backslash-set
lines of the script, used when `run-analysis.sh` passes no `-v`
overrides). -/
def min_lon_default : ℚ := -122.356

/-- Default value of the psql variable `min_lat`. -/
def min_lat_default : ℚ := 47.592

/-- Default value of the psql variable `max_lon`. -/
def max_lon_default : ℚ := -122.320

/-- Default value of the psql variable `max_lat`. -/
def max_lat_default : ℚ := 47.619

/-- Default value of the psql variable `bbox_buffer_m`. -/
def bbox_buffer_m_default : ℚ := 200

/-- The parameters the script runs with when no overrides are supplied. -/
def defaultRegionParams : RegionParams :=
  { min_lon := min_lon_default, min_lat := min_lat_default,
    max_lon := max_lon_default, max_lat := max_lat_default,
    bbox_buffer_m := bbox_buffer_m_default }

/-- The `analysis_bounds` step: `CREATE UNLOGGED TABLE analysis_bounds AS
SELECT ST_Buffer(ST_Transform(ST_MakeEnvelope(:min_lon, :min_lat,
:max_lon, :max_lat, 4326), 3857), :bbox_buffer_m) AS geom`.
The step is embedded as a script statement that can in principle abort
the psql session (`ON_ERROR_STOP` is on), but the statement contains no
validation and none of the three builtins raises on any rational
input, so it always yields the single region row. -/
def analysis_bounds (p : RegionParams) : Except String Geom :=
  .ok (.buffer (.transform
    (.makeEnvelope p.min_lon p.min_lat p.max_lon p.max_lat 4326) 3857) p.bbox_buffer_m)

/-! ### Phase 2: street segmentation (`streets_analyzed`) -/

/-- Length of `ST_LineSubstring(geom, a, b)` for a linestring of total
length `L`: the sub-line spanning parametric fractions `a` to `b` has
length `(b - a) * L` (semantics of the external builtin, which cuts by
arc-length fraction). -/
def lineSubstringLen (L a b : ℚ) : ℚ := (b - a) * L

/-- Series length of `generate_series(0, CEIL(geom_len / 20.0)::int - 1)`:
`CEIL(L/20)` terms, none when the upper bound is negative. -/
def segCount (L : ℚ) : ℕ := (Int.ceil (L / 20)).toNat

/-- Segment lengths emitted by the `segmented` CTE for one clipped piece
of length `L`: for each `n` in the series, the chunk
`ST_LineSubstring(geom, n * 20.0 / geom_len, LEAST((n + 1) * 20.0 / geom_len, 1.0))`. -/
def segmented (L : ℚ) : List ℚ :=
  (List.range (segCount L)).map (fun (n : ℕ) =>
    lineSubstringLen L ((n : ℚ) * 20 / L) (min (((n : ℚ) + 1) * 20 / L) 1))

/-- A clipped piece as produced by the `simple_lines` CTE: the
`ST_IsEmpty` flag and `ST_Length` of `ST_Intersection((ST_Dump(way)).geom, b.geom)`. -/
structure Piece where
  geomIsEmpty : Bool
  len : ℚ
  deriving DecidableEq

/-- The `simple_lines_with_len` CTE's filter:
`WHERE NOT ST_IsEmpty(geom) AND ST_Length(geom) > 0`. -/
def simple_lines_with_len (ps : List Piece) : List Piece :=
  ps.filter (fun p => !p.geomIsEmpty && decide (0 < p.len))

/-- All segment lengths contributed to `streets_analyzed` by a list of
clipped pieces: the `segmented` CTE ranges over the filtered pieces. -/
def segmentedAll (ps : List Piece) : List ℚ :=
  (simple_lines_with_len ps).flatMap (fun p => segmented p.len)

/-! ### Phase 3: nearest eligible crosswalk

`G` is the opaque geometry type and `dist` the external `ST_Distance`
(equivalently the KNN operator `<->`, which on PostGIS geometries orders
by the same true planar distance between the geometries). -/

/-- A row of the `crosswalks` table (Phase 1 output). -/
structure Crossing (G : Type) where
  crossing_osm_id : Int
  geom : G
  crossing_type : String
  marked : Option Bool
  deriving DecidableEq

/-- A row of `streets_analyzed` (Phase 2 output plus the two columns
added by `ALTER TABLE`, both NULL until Phase 3 runs). -/
structure Street (G : Type) where
  osm_id : Int
  name : Option String
  highway : String
  geom : G
  dist_to_crossing_meters : Option ℚ := none
  nearest_crossing_marked : Option Bool := none
  deriving DecidableEq

/-- Eligibility filter of the Phase 3 lateral subquery:
`WHERE c.crossing_type NOT ILIKE '%unmarked%'`. -/
def eligible {G : Type} (c : Crossing G) : Bool :=
  !(ilikeContains c.crossing_type "unmarked")

/-- The lateral subquery: over eligible crosswalks,
`ORDER BY s.geom <-> c.geom LIMIT 1` returns a distance-minimal row
(modelled with `List.argmin`; ties go to an unspecified minimal row, here
the first in table order), or no row when no eligible crosswalk exists. -/
def nearestRow {G : Type} (dist : G → G → ℚ) (cs : List (Crossing G))
    (s : Street G) : Option (Crossing G) :=
  (cs.filter eligible).argmin (fun c => dist s.geom c.geom)

/-- The Phase 3 `UPDATE` applied to one street row: when the lateral join
produced a row, set `dist_to_crossing_meters := ST_Distance(s.geom, c.geom)`
and `nearest_crossing_marked := c.marked`; when it produced none, the
street has no row in `nearest` and is left untouched. -/
def nearestUpdate {G : Type} (dist : G → G → ℚ) (cs : List (Crossing G))
    (s : Street G) : Street G :=
  match nearestRow dist cs s with
  | none => s
  | some c =>
    { s with dist_to_crossing_meters := some (dist s.geom c.geom),
             nearest_crossing_marked := c.marked }

/-- Phase 3 over the whole table: every street row receives its own
lateral-join result. -/
def phase3 {G : Type} (dist : G → G → ℚ) (cs : List (Crossing G))
    (ss : List (Street G)) : List (Street G) :=
  ss.map (nearestUpdate dist cs)

/-! ### Tile endpoint (`route.ts`) -/

/-- Leading decimal-digit run of a character list, as a number; `none`
when the run is empty (JS `parseInt` yields `NaN` then). -/
def leadingDigits (cs : List Char) : Option Nat :=
  let ds := cs.takeWhile (fun c => c.isDigit)
  if ds.isEmpty then none
  else some (ds.foldl (fun acc c => acc * 10 + (c.toNat - 48)) 0)

/-- JS `Number.parseInt(s, 10)` as an exact-integer model: skip leading
whitespace, read an optional sign and the longest decimal-digit prefix,
silently ignore the rest of the string; `none` models `NaN`.  (JS floats
lose precision above 2^53 and reach Infinity only past roughly 309
digits; all inputs considered here are far below both bounds.) -/
def parseIntJS (s : String) : Option Int :=
  match s.toList.dropWhile (fun c => c == ' ' || c == '\t' || c == '\n' || c == '\r') with
  | '-' :: rest => (leadingDigits rest).map (fun n => -(n : Int))
  | '+' :: rest => (leadingDigits rest).map (fun n => (n : Int))
  | cs => (leadingDigits cs).map (fun n => (n : Int))

/-- `parseZxy` from `route.ts`: `Number.parseInt(-, 10)` on each path
parameter, reject non-finite results, then `z < 0 || z > 22`, then
`x < 0 || y < 0`. -/
def parseZxy (z x y : String) : Option (Int × Int × Int) :=
  match parseIntJS z, parseIntJS x, parseIntJS y with
  | some zi, some xi, some yi =>
    if zi < 0 ∨ zi > 22 then none
    else if xi < 0 ∨ yi < 0 then none
    else some (zi, xi, yi)
  | _, _, _ => none

/-- Body of a response from the tile route: raw tile bytes, or one of
the JSON payloads built with `NextResponse.json`. -/
inductive RouteBody where
  | bytes (b : List Nat)
  | errorJson (error : String) (message : Option String)
  deriving DecidableEq

/-- An HTTP response of the tile route. -/
structure RouteResponse where
  status : Nat
  contentType : String
  body : RouteBody
  deriving DecidableEq

/-- A row of the `mvtgeom` CTE in `route.ts`: the selected attribute
columns, plus the clipped geometry `ST_AsMVTGeom(s.geom, b.geom, 4096, 256, true)`
(kept opaque).  Note the distance column is carried through unchanged. -/
structure MvtRow (G : Type) where
  osm_id : Int
  name : Option String
  highway : String
  dist_to_crossing_meters : Option ℚ
  nearest_crossing_marked : Option Bool
  geom : G

/-- The `mvtgeom` CTE: streets satisfying
`ST_Intersects(s.geom, ST_TileEnvelope(z, x, y))` (the predicate
`intersects`, curried at the requested tile), projected onto the
selected columns. -/
def tileRows {G : Type} (intersects : G → Bool) (ss : List (Street G)) : List (MvtRow G) :=
  (ss.filter (fun s => intersects s.geom)).map (fun s =>
    { osm_id := s.osm_id, name := s.name, highway := s.highway,
      dist_to_crossing_meters := s.dist_to_crossing_meters,
      nearest_crossing_marked := s.nearest_crossing_marked,
      geom := s.geom })

/-- The full tile query: `SELECT COALESCE(ST_AsMVT(mvtgeom, 'streets',
4096, 'geom'), ''::bytea)`.  `ST_AsMVT` is an aggregate: over zero rows
it yields NULL, which `COALESCE` turns into the empty byte string; over
nonzero rows the opaque external encoder `encodeMVT` produces the layer
bytes. -/
def tileBytes {G : Type} (encodeMVT : List (MvtRow G) → List Nat)
    (intersects : G → Bool) (ss : List (Street G)) : List Nat :=
  let rows := tileRows intersects ss
  if rows.isEmpty then [] else encodeMVT rows

/-- The `GET` handler of `route.ts`.  `db` models `pool.query` on the
validated coordinates: either the query's `tile` bytea or a thrown
error message (caught and turned into the 500 payload). -/
def routeGET (db : Int → Int → Int → Except String (List Nat))
    (z x y : String) : RouteResponse :=
  match parseZxy z x y with
  | none =>
    { status := 400, contentType := "application/json",
      body := .errorJson "Invalid z/x/y" none }
  | some (zi, xi, yi) =>
    match db zi xi yi with
    | .ok tile =>
      { status := 200, contentType := "application/vnd.mapbox-vector-tile",
        body := .bytes tile }
    | .error msg =>
      { status := 500, contentType := "application/json",
        body := .errorJson "Failed to generate tile" (some msg) }

/-! ### Published export (`export-sketchiness-tiles.sh`) -/

/-- Distance attribute of the published StreetSegments export:
`COALESCE(LEAST(dist_to_crossing_meters, 500.0), 500.0)`.
PostgreSQL `LEAST` ignores NULL arguments, so a NULL distance already
becomes `500.0` at `LEAST` and `COALESCE` is then a no-op; a non-NULL
distance is clamped to at most `500.0`. -/
def exportDist (d : Option ℚ) : ℚ :=
  match d with
  | none => 500
  | some v => min v 500

/-! ### Concrete fixtures for closed-instance evaluations -/

/-- A database stub for concrete evaluations of the route handler:
every query succeeds with the empty tile body. -/
def okEmptyDb : Int → Int → Int → Except String (List Nat) :=
  fun _ _ _ => .ok []

end CrosswalkMap

namespace CrosswalkMap

/-! ### Helper lemmas -/

/-- SQL three-valued `OR` on two non-NULL operands is plain boolean `or`. -/
theorem sqlOr_some (a b : Bool) : sqlOr (some a) (some b) = some (a || b) := by
  cases a <;> cases b <;> rfl

/-- With a positive length the chunk count is exactly the ceiling. -/
theorem segCount_cast {L : ℚ} (hL : 0 < L) : ((segCount L : ℕ) : ℤ) = ⌈L / 20⌉ := by
  have h1 : (0 : ℤ) < ⌈L / 20⌉ := Int.ceil_pos.mpr (by positivity)
  exact Int.toNat_of_nonneg h1.le

/-- Chunks before the count start strictly inside the piece. -/
theorem mul20_lt {L : ℚ} (hL : 0 < L) {k : ℕ} (hk : k < segCount L) :
    (k : ℚ) * 20 < L := by
  have h2 : ((k : ℤ) : ℚ) < L / 20 := by
    apply Int.lt_ceil.mp
    rw [← segCount_cast hL]
    exact_mod_cast hk
  have h3 := (lt_div_iff₀ (by norm_num : (0 : ℚ) < 20)).mp (by exact_mod_cast h2)
  linarith

/-- The piece ends by the last chunk boundary. -/
theorem le_mul20 {L : ℚ} (hL : 0 < L) : L ≤ (segCount L : ℚ) * 20 := by
  have h1 : L / 20 ≤ ((segCount L : ℤ) : ℚ) := by
    rw [segCount_cast hL]; exact Int.le_ceil _
  have h2 := (div_le_iff₀ (by norm_num : (0 : ℚ) < 20)).mp h1
  exact_mod_cast h2

/-- Closed form of one emitted chunk length. -/
theorem segmented_entry {L : ℚ} (hL : 0 < L) (k : ℕ) :
    lineSubstringLen L ((k : ℚ) * 20 / L) (min (((k : ℚ) + 1) * 20 / L) 1) =
      min (((k : ℚ) + 1) * 20) L - (k : ℚ) * 20 := by
  unfold lineSubstringLen
  rw [sub_mul, min_mul_of_nonneg _ _ (le_of_lt hL),
    div_mul_cancel₀ _ (ne_of_gt hL), div_mul_cancel₀ _ (ne_of_gt hL), one_mul]

/-- Telescoping sum over an initial segment of naturals. -/
theorem sum_range_map_sub (g : ℕ → ℚ) (n : ℕ) :
    ((List.range n).map (fun k => g (k + 1) - g k)).sum = g n - g 0 := by
  induction n with
  | zero => simp
  | succ m ih =>
    rw [List.range_succ, List.map_append, List.sum_append, ih]
    simp

/-! ### Claim theorems -/

/-- C1 counterexample: the claim asserts that a crossing tagged exactly
`unmarked` has `marked = false` and that a missing tag yields
`marked = false`; on the code, `'unmarked' ILIKE '%marked%'` matches
(the substring `marked` occurs inside `unmarked`), so the `marked`
column is true there, and a missing (SQL NULL) tag propagates NULL into
`marked`, not false. -/
theorem c1_unmarked_tag_counterexample :
    crossing_type (some "unmarked") = "unmarked"
  ∧ marked (some "unmarked") = some true
  ∧ crossing_type none = "unknown"
  ∧ marked none = none :=
  ⟨rfl, by decide, rfl, rfl⟩

/-- C1 (amended): a missing `crossing` tag yields
`crossing_type = "unknown"` and a NULL `marked`; an empty tag yields
`crossing_type = "unknown"` and `marked = false`; a nonempty tag `s` is
kept as `crossing_type` and `marked` is exactly the case-insensitive
substring test for `marked` or `zebra` on the raw tag (so the tag
`unmarked` gets `marked = true`). -/
theorem c1_classification_amended (tag : Option String) (s : String)
    (hs : tag = some s) (hne : s ≠ "") :
    (crossing_type none = "unknown" ∧ marked none = none)
  ∧ (crossing_type (some "") = "unknown" ∧ marked (some "") = some false)
  ∧ crossing_type tag = s
  ∧ marked tag = some (ilikeContains s "marked" || ilikeContains s "zebra") := by
  subst hs
  refine ⟨⟨rfl, rfl⟩, ⟨rfl, rfl⟩, ?_, ?_⟩
  · simp [crossing_type, sqlNullifEmpty, hne]
  · simp only [marked, sqlIlikeContains, Option.map_some']
    exact sqlOr_some _ _

/-- C1 witness: the amended classification evaluated at the tag
`unmarked`. -/
theorem c1_classification_amended_witness :
    (crossing_type none = "unknown" ∧ marked none = none)
  ∧ (crossing_type (some "") = "unknown" ∧ marked (some "") = some false)
  ∧ crossing_type (some "unmarked") = "unmarked"
  ∧ marked (some "unmarked") =
      some (ilikeContains "unmarked" "marked" || ilikeContains "unmarked" "zebra") :=
  c1_classification_amended (some "unmarked") "unmarked" rfl (by decide)

/-- C7: the script's default analysis parameters are not the whole
world with no buffer: they are a downtown-Seattle bounding box with a
200 m buffer (contradicting both the claim and the code's own comment
that defaults cover the full world). -/
theorem c7_defaults_not_world :
    defaultRegionParams =
      { min_lon := -122.356, min_lat := 47.592, max_lon := -122.320,
        max_lat := 47.619, bbox_buffer_m := 200 }
  ∧ defaultRegionParams.bbox_buffer_m ≠ 0
  ∧ defaultRegionParams.min_lon ≠ -180
  ∧ defaultRegionParams.min_lat ≠ -90
  ∧ defaultRegionParams.max_lon ≠ 180
  ∧ defaultRegionParams.max_lat ≠ 90 := by
  refine ⟨rfl, ?_, ?_, ?_, ?_, ?_⟩ <;>
    norm_num [defaultRegionParams, min_lon_default, min_lat_default,
      max_lon_default, max_lat_default, bbox_buffer_m_default]

/-- C8 counterexample: with `min_lon = 1 ≥ max_lon = 0`,
`min_lat = 5 ≥ max_lat = 3` and a negative buffer `-7`, the region
construction does not fail with any error: it succeeds and produces the
buffered transformed envelope, because the script contains no
validation at all. -/
theorem c8_invalid_region_counterexample :
    ¬((1 : ℚ) < 0) ∧ ¬((5 : ℚ) < 3) ∧ ¬((0 : ℚ) ≤ -7)
  ∧ analysis_bounds ⟨1, 5, 0, 3, -7⟩ =
      Except.ok (Geom.buffer (Geom.transform
        (Geom.makeEnvelope 1 5 0 3 4326) 3857) (-7)) :=
  ⟨by norm_num, by norm_num, by norm_num, rfl⟩

/-- C8 (amended): the region construction performs no validation and
never fails; for every input, including ones violating
`minLon < maxLon`, `minLat < maxLat`, `bufferMeters ≥ 0`, it succeeds
with the single buffered polygon
`ST_Buffer(ST_Transform(ST_MakeEnvelope(...), 3857), buffer)`. -/
theorem c8_region_never_fails (p : RegionParams) :
    analysis_bounds p =
      Except.ok (Geom.buffer (Geom.transform
        (Geom.makeEnvelope p.min_lon p.min_lat p.max_lon p.max_lat 4326) 3857)
        p.bbox_buffer_m) :=
  rfl

/-- C9 counterexample: the on-demand tile endpoint (`route.ts`) carries
`dist_to_crossing_meters` into the tile feature unchanged; a segment
with stored distance 600 produces a feature attribute of 600, which
exceeds the claimed clamp bound 500. -/
theorem c9_unclamped_counterexample :
    (tileRows (fun _ => true)
        [{ osm_id := 42, name := none, highway := "residential", geom := (),
           dist_to_crossing_meters := some 600,
           nearest_crossing_marked := some true }]).map
      (fun r => r.dist_to_crossing_meters) = [some 600]
  ∧ ¬((600 : ℚ) ≤ 500) :=
  ⟨rfl, by norm_num⟩

/-- C9 (amended): the offline export clamps the published distance to
at most 500 (NULL becomes 500), while the on-demand tile endpoint
carries each selected segment's stored distance into the feature
attributes unchanged, with no clamp. -/
theorem c9_clamp_amended {G : Type} (d : Option ℚ) (intersects : G → Bool)
    (ss : List (Street G)) :
    exportDist d ≤ 500
  ∧ (tileRows intersects ss).map (fun r => r.dist_to_crossing_meters)
      = (ss.filter (fun s => intersects s.geom)).map
          (fun s => s.dist_to_crossing_meters) := by
  constructor
  · cases d with
    | none => simp [exportDist]
    | some v => simp [exportDist]
  · simp [tileRows, List.map_map]

/-- C10 counterexample: the claim says a parameter with a parseable
leading integer is never rejected, but `x = "-1.5"` truncates to `-1`,
which fails the `x ≥ 0` validation, so the endpoint answers 400. -/
theorem c10_truncation_counterexample :
    parseIntJS "-1.5" = some (-1)
  ∧ routeGET okEmptyDb "3" "-1.5" "4" =
      { status := 400, contentType := "application/json",
        body := RouteBody.errorJson "Invalid z/x/y" none } := by
  decide

/-- C10 (amended): a parameter string with a parseable leading integer
is truncated to it, and the request is served for the truncated
coordinates if and only if they also pass the range validation
(`0 ≤ z ≤ 22`, `x ≥ 0`, `y ≥ 0`); a parameter with no parseable integer
prefix is always rejected with 400. -/
theorem c10_truncation_amended (z x y w : String) (zi xi yi : Int)
    (tiles : Int → Int → Int → List Nat)
    (hz : parseIntJS z = some zi) (hx : parseIntJS x = some xi)
    (hy : parseIntJS y = some yi)
    (hz0 : 0 ≤ zi) (hz22 : zi ≤ 22) (hx0 : 0 ≤ xi) (hy0 : 0 ≤ yi)
    (hw : parseIntJS w = none) :
    parseZxy z x y = some (zi, xi, yi)
  ∧ routeGET (fun a b c => Except.ok (tiles a b c)) z x y =
      { status := 200, contentType := "application/vnd.mapbox-vector-tile",
        body := RouteBody.bytes (tiles zi xi yi) }
  ∧ parseZxy w x y = none
  ∧ parseZxy z w y = none
  ∧ parseZxy z x w = none := by
  have hp : parseZxy z x y = some (zi, xi, yi) := by
    simp only [parseZxy, hz, hx, hy]
    rw [if_neg (by omega), if_neg (by omega)]
  refine ⟨hp, ?_, ?_, ?_, ?_⟩
  · simp [routeGET, hp]
  · simp [parseZxy, hw]
  · simp [parseZxy, hz, hw]
  · simp [parseZxy, hz, hx, hw]

/-- C10 witness: the amended behaviour at `z = "3.9"`, `x = "5abc"`,
`y = "7"` (served as tile (3, 5, 7)) and the unparseable `w = "zz"`. -/
theorem c10_truncation_amended_witness :
    parseZxy "3.9" "5abc" "7" = some (3, 5, 7)
  ∧ routeGET (fun a b c => Except.ok [a.toNat, b.toNat, c.toNat]) "3.9" "5abc" "7" =
      { status := 200, contentType := "application/vnd.mapbox-vector-tile",
        body := RouteBody.bytes [3, 5, 7] }
  ∧ parseZxy "zz" "5abc" "7" = none
  ∧ parseZxy "3.9" "zz" "7" = none
  ∧ parseZxy "3.9" "5abc" "zz" = none :=
  c10_truncation_amended "3.9" "5abc" "7" "zz" 3 5 7
    (fun a b c => [a.toNat, b.toNat, c.toNat])
    (by decide) (by decide) (by decide)
    (by decide) (by decide) (by decide) (by decide) (by decide)

/-- C5: the tile endpoint answers exactly the 400 response with the
structured `error` JSON body if and only if the parsed z, x, y fail the
validation (do not parse, `z` outside `[0, 22]`, or negative `x`/`y`);
in particular `z = "-1"` and `x = "-1"` draw the client error for every
database behaviour, never a success. -/
theorem c5_bad_request_iff (db : Int → Int → Int → Except String (List Nat))
    (z x y : String) :
    (routeGET db z x y =
        { status := 400, contentType := "application/json",
          body := RouteBody.errorJson "Invalid z/x/y" none }
      ↔ parseZxy z x y = none)
  ∧ (routeGET db "-1" x y).status = 400
  ∧ (routeGET db z "-1" y).status = 400 := by
  have h1 : parseIntJS "-1" = some (-1) := by decide
  refine ⟨?_, ?_, ?_⟩
  · cases h : parseZxy z x y with
    | none => simp [routeGET, h]
    | some t =>
      obtain ⟨zi, xi, yi⟩ := t
      cases hdb : db zi xi yi with
      | ok tile => simp [routeGET, h, hdb]
      | error msg => simp [routeGET, h, hdb]
  · have hp : parseZxy "-1" x y = none := by
      cases hx : parseIntJS x <;> cases hy : parseIntJS y <;>
        simp [parseZxy, h1, hx, hy]
    simp [routeGET, hp]
  · have hp : parseZxy z "-1" y = none := by
      cases hz : parseIntJS z with
      | none => simp [parseZxy, hz]
      | some zi =>
        cases hy : parseIntJS y with
        | none => simp [parseZxy, hz, h1, hy]
        | some yi =>
          simp only [parseZxy, hz, h1, hy]
          by_cases hrange : zi < 0 ∨ zi > 22
          · rw [if_pos hrange]
          · rw [if_neg hrange, if_pos (by omega)]
    simp [routeGET, hp]

/-- C2: when the Phase 3 lateral join returns a row `cw` for street
`s`, the UPDATE stores exactly `ST_Distance(s.geom, cw.geom)` and
`cw.marked`; `cw` is an eligible crossing from the table and its
distance is minimal among all eligible crossings (`c` ranges over
them); eligibility is textual on the raw tag, so a crossing tagged
`traffic_signals` is eligible even with `marked = false`. -/
theorem c2_nearest_distance_min {G : Type} (dist : G → G → ℚ)
    (cs : List (Crossing G)) (s : Street G) (cw c c' : Crossing G)
    (hw : nearestRow dist cs s = some cw)
    (hcmem : c ∈ cs) (hce : eligible c = true)
    (hc' : c'.crossing_type = "traffic_signals") :
    (nearestUpdate dist cs s).dist_to_crossing_meters = some (dist s.geom cw.geom)
  ∧ cw ∈ cs
  ∧ eligible cw = true
  ∧ (nearestUpdate dist cs s).nearest_crossing_marked = cw.marked
  ∧ dist s.geom cw.geom ≤ dist s.geom c.geom
  ∧ eligible c' = true := by
  have hmem : cw ∈ (cs.filter eligible).argmin (fun c => dist s.geom c.geom) := hw
  have hfil : cw ∈ cs.filter eligible := List.argmin_mem hmem
  have hcw := List.mem_filter.mp hfil
  refine ⟨?_, hcw.1, hcw.2, ?_, ?_, ?_⟩
  · simp [nearestUpdate, hw]
  · simp [nearestUpdate, hw]
  · exact @List.le_of_mem_argmin _ _ _ (fun c => dist s.geom c.geom) _ c cw
      (List.mem_filter.mpr ⟨hcmem, hce⟩) hmem
  · simp [eligible, hc']
    decide

/-- C2 witness: three concrete crossings on an integer line with
squared-distance geometry; the nearest eligible crossing to the street
at 12 is the `traffic_signals` crossing at 10 (the `unmarked` one at 5
is closer but ineligible). -/
theorem c2_nearest_distance_min_witness :
    (nearestUpdate (fun a b => (((a - b) * (a - b) : ℤ) : ℚ))
        [⟨1, 5, "unmarked", some true⟩, ⟨2, 10, "traffic_signals", some false⟩,
         ⟨3, 30, "marked", some true⟩]
        ⟨7, none, "residential", 12, none, none⟩).dist_to_crossing_meters
      = some ((fun a b => (((a - b) * (a - b) : ℤ) : ℚ)) (12 : ℤ) 10)
  ∧ (⟨2, 10, "traffic_signals", some false⟩ : Crossing ℤ) ∈
      [⟨1, 5, "unmarked", some true⟩, ⟨2, 10, "traffic_signals", some false⟩,
       ⟨3, 30, "marked", some true⟩]
  ∧ eligible (⟨2, 10, "traffic_signals", some false⟩ : Crossing ℤ) = true
  ∧ (nearestUpdate (fun a b => (((a - b) * (a - b) : ℤ) : ℚ))
        [⟨1, 5, "unmarked", some true⟩, ⟨2, 10, "traffic_signals", some false⟩,
         ⟨3, 30, "marked", some true⟩]
        ⟨7, none, "residential", 12, none, none⟩).nearest_crossing_marked
      = (⟨2, 10, "traffic_signals", some false⟩ : Crossing ℤ).marked
  ∧ (fun a b => (((a - b) * (a - b) : ℤ) : ℚ)) (12 : ℤ) 10 ≤
      (fun a b => (((a - b) * (a - b) : ℤ) : ℚ)) (12 : ℤ)
        (⟨3, 30, "marked", some true⟩ : Crossing ℤ).geom
  ∧ eligible (⟨2, 10, "traffic_signals", some false⟩ : Crossing ℤ) = true :=
  c2_nearest_distance_min (fun a b => (((a - b) * (a - b) : ℤ) : ℚ))
    [⟨1, 5, "unmarked", some true⟩, ⟨2, 10, "traffic_signals", some false⟩,
     ⟨3, 30, "marked", some true⟩]
    ⟨7, none, "residential", 12, none, none⟩
    ⟨2, 10, "traffic_signals", some false⟩
    ⟨3, 30, "marked", some true⟩
    ⟨2, 10, "traffic_signals", some false⟩
    (by decide) (by decide) (by decide) rfl

/-- C4: when no eligible crossing exists (every crossing's raw tag
contains `unmarked` case-insensitively, vacuously including an empty
table), Phase 3 leaves every segment's distance and marked fields NULL:
the lateral join produces no row, so the UPDATE touches nothing. -/
theorem c4_no_eligible_unset {G : Type} (dist : G → G → ℚ)
    (cs : List (Crossing G)) (ss : List (Street G)) (s' : Street G)
    (hcs : ∀ c ∈ cs, ilikeContains c.crossing_type "unmarked" = true)
    (hss : ∀ s ∈ ss, s.dist_to_crossing_meters = none ∧ s.nearest_crossing_marked = none)
    (hs' : s' ∈ phase3 dist cs ss) :
    s'.dist_to_crossing_meters = none ∧ s'.nearest_crossing_marked = none := by
  have hfil : cs.filter eligible = [] :=
    List.filter_eq_nil_iff.mpr (fun c hc => by simp [eligible, hcs c hc])
  obtain ⟨s, hsmem, rfl⟩ := List.mem_map.mp hs'
  have hupd : nearestUpdate dist cs s = s := by
    simp [nearestUpdate, nearestRow, hfil]
  rw [hupd]
  exact hss s hsmem

/-- C4 witness: a single street and a single `unmarked` crossing; the
resolver leaves the street's fields NULL. -/
theorem c4_no_eligible_unset_witness :
    (⟨7, none, "residential", 12, none, none⟩ : Street ℤ).dist_to_crossing_meters = none
  ∧ (⟨7, none, "residential", 12, none, none⟩ : Street ℤ).nearest_crossing_marked = none :=
  c4_no_eligible_unset (fun a b => (((a - b) * (a - b) : ℤ) : ℚ))
    [⟨1, 3, "unmarked", some true⟩]
    [⟨7, none, "residential", 12, none, none⟩]
    ⟨7, none, "residential", 12, none, none⟩
    (by decide) (by decide) (by decide)

/-- C6: a valid tile coordinate whose envelope intersects no street
segment is answered with status 200, the vector-tile content type and a
zero-length body — `ST_AsMVT` over an empty row set aggregates to NULL
and `COALESCE` turns it into the empty bytea — not with an error. -/
theorem c6_empty_tile_success {G : Type} (encodeMVT : List (MvtRow G) → List Nat)
    (intersects : Int → Int → Int → G → Bool) (ss : List (Street G))
    (z x y : String) (zi xi yi : Int)
    (hp : parseZxy z x y = some (zi, xi, yi))
    (hnone : ∀ s ∈ ss, intersects zi xi yi s.geom = false) :
    routeGET (fun a b c => Except.ok (tileBytes encodeMVT (intersects a b c) ss)) z x y =
      { status := 200, contentType := "application/vnd.mapbox-vector-tile",
        body := RouteBody.bytes [] } := by
  have hrows : tileRows (intersects zi xi yi) ss = [] := by
    unfold tileRows
    rw [List.filter_eq_nil_iff.mpr (fun s hs => by simp [hnone s hs])]
    rfl
  simp [routeGET, hp, tileBytes, hrows]

/-- C6 witness: one street, an intersection predicate that rejects
everything, and a non-trivial encoder; the response is the empty 200
vector tile. -/
theorem c6_empty_tile_success_witness :
    routeGET (fun a b c => Except.ok (tileBytes (fun _ => [9])
        ((fun _ _ _ (_ : Unit) => false) a b c)
        [⟨1, none, "residential", (), none, none⟩])) "10" "1" "2" =
      { status := 200, contentType := "application/vnd.mapbox-vector-tile",
        body := RouteBody.bytes [] } :=
  c6_empty_tile_success (fun _ => [9]) (fun _ _ _ _ => false)
    [⟨1, none, "residential", (), none, none⟩] "10" "1" "2" 10 1 2
    (by decide) (by decide)

/-- C3: for a clipped piece of positive length `L` and step 20, the
segmenter emits exactly `⌈L/20⌉` segments; every segment before the
last has length exactly 20; the last has length `L - 20(n-1)`, which
lies in `(0, 20]`; the lengths sum to `L` exactly (full coverage, no
gaps or overlaps); and a piece with empty geometry or non-positive
length is discarded by the filter and produces no segments. -/
theorem c3_segment_lengths (L : ℚ) (i : ℕ) (p : Piece) (hL : 0 < L)
    (hi : i + 1 < (segmented L).length)
    (hp : p.geomIsEmpty = true ∨ p.len ≤ 0) :
    ((segmented L).length : ℤ) = ⌈L / 20⌉
  ∧ (segmented L)[i]? = some 20
  ∧ (segmented L).getLast? = some (L - ((segCount L : ℚ) - 1) * 20)
  ∧ 0 < L - ((segCount L : ℚ) - 1) * 20
  ∧ L - ((segCount L : ℚ) - 1) * 20 ≤ 20
  ∧ (segmented L).sum = L
  ∧ segmentedAll [p] = [] := by
  have hlen : (segmented L).length = segCount L := by
    rw [segmented, List.length_map, List.length_range]
  have hn : 0 < segCount L := by
    have hcast := segCount_cast hL
    have hpos : (0 : ℤ) < ⌈L / 20⌉ := Int.ceil_pos.mpr (by positivity)
    rw [← hcast] at hpos
    exact_mod_cast hpos
  have hle : ((segCount L - 1 : ℕ) : ℚ) = (segCount L : ℚ) - 1 := by
    rw [Nat.cast_sub hn, Nat.cast_one]
  refine ⟨?_, ?_, ?_, ?_, ?_, ?_, ?_⟩
  · rw [hlen]; exact segCount_cast hL
  · have hi2 : i + 1 < segCount L := by rw [hlen] at hi; exact hi
    have hi' : i < segCount L := by omega
    have hlt : ((i : ℚ) + 1) * 20 < L := by
      have h20 := mul20_lt hL hi2
      push_cast at h20
      linarith
    have hval : lineSubstringLen L ((i : ℚ) * 20 / L)
        (min (((i : ℚ) + 1) * 20 / L) 1) = 20 := by
      rw [segmented_entry hL i, min_eq_left hlt.le]; ring
    rw [segmented, List.getElem?_map, List.getElem?_range hi']
    simp [hval]
  · have hlast : lineSubstringLen L (((segCount L - 1 : ℕ) : ℚ) * 20 / L)
        (min ((((segCount L - 1 : ℕ) : ℚ) + 1) * 20 / L) 1)
        = L - ((segCount L : ℚ) - 1) * 20 := by
      rw [segmented_entry hL (segCount L - 1), hle]
      have h1 : (segCount L : ℚ) - 1 + 1 = (segCount L : ℚ) := by ring
      rw [h1, min_eq_right (le_mul20 hL)]
    rw [List.getLast?_eq_getElem?, segmented, List.length_map, List.length_range,
      List.getElem?_map, List.getElem?_range (by omega : segCount L - 1 < segCount L)]
    simp [hlast]
  · have hb1 := mul20_lt hL (show segCount L - 1 < segCount L by omega)
    rw [hle] at hb1
    linarith
  · have hb2 := le_mul20 hL
    linarith
  · have hcong : segmented L = (List.range (segCount L)).map
        (fun k => (fun m : ℕ => min ((m : ℚ) * 20) L) (k + 1)
          - (fun m : ℕ => min ((m : ℚ) * 20) L) k) := by
      rw [segmented]
      apply List.map_congr_left
      intro k hk
      have hk' : k < segCount L := List.mem_range.mp hk
      rw [segmented_entry hL k]
      have h1 : min ((k : ℚ) * 20) L = (k : ℚ) * 20 :=
        min_eq_left (mul20_lt hL hk').le
      simp only []
      rw [h1]
      push_cast
      ring_nf
    rw [hcong, sum_range_map_sub (fun m : ℕ => min ((m : ℚ) * 20) L)]
    have hgn : min ((segCount L : ℚ) * 20) L = L := min_eq_right (le_mul20 hL)
    simp [hgn, min_eq_left hL.le]
  · have hpred : (!p.geomIsEmpty && decide (0 < p.len)) = false := by
      rcases hp with h | h
      · rw [h]; rfl
      · rw [decide_eq_false (not_lt.mpr h), Bool.and_false]
    simp [segmentedAll, simple_lines_with_len, List.filter_cons, hpred]

/-- C3 witness: a 45 m piece yields 3 segments, the first of length 20,
the last of length 5, summing to 45; an empty 7 m piece is discarded. -/
theorem c3_segment_lengths_witness :
    ((segmented 45).length : ℤ) = ⌈(45 : ℚ) / 20⌉
  ∧ (segmented 45)[0]? = some 20
  ∧ (segmented 45).getLast? = some (45 - ((segCount 45 : ℚ) - 1) * 20)
  ∧ 0 < 45 - ((segCount 45 : ℚ) - 1) * 20
  ∧ 45 - ((segCount 45 : ℚ) - 1) * 20 ≤ 20
  ∧ (segmented 45).sum = 45
  ∧ segmentedAll [⟨true, 7⟩] = [] := by
  have h : (⌈(45 : ℚ) / 20⌉ : ℤ) = 3 := by rw [Int.ceil_eq_iff]; norm_num
  have hc : segCount 45 = 3 := by simp [segCount, h]
  have hi : (0 : ℕ) + 1 < (segmented 45).length := by
    rw [segmented, List.length_map, List.length_range, hc]
    norm_num
  exact c3_segment_lengths 45 0 ⟨true, 7⟩ (by norm_num) hi (Or.inl rfl)

end CrosswalkMap

